import Mathlib

/-!
Shallow embedding of the crypto-monitoring-tools repository.

`BTCMonitor` embeds the technical-analysis core of `btc-monitor/monitor.js`
(`analyzeKline`, `calculateRSI`, `generateMarketSignals`); `MemeHunter`
embeds the text heuristics of the meme-token hunter script
(`extractContractAddress`, `detectChain`, `assessRisk`, and the seen-token
pruning loop of `init`).

JavaScript numbers are modelled as exact rationals (`ℚ`); `Math.round` is
modelled as `jsRound x = ⌊x + 1/2⌋`, which agrees with JavaScript's
round-half-toward-positive-infinity behaviour.  JavaScript objects whose
fields are only conditionally assigned are modelled with `Option` fields.
-/

namespace BTCMonitor

/-- `Math.round` for JavaScript: nearest integer, half rounds toward +∞. -/
def jsRound (x : ℚ) : ℤ := ⌊x + 1/2⌋

/-- `Math.round(x * 10) / 10`: round to one decimal place. -/
def round1 (x : ℚ) : ℚ := (jsRound (x * 10) : ℚ) / 10

/-- `Math.round(x * 100) / 100`: round to two decimal places. -/
def round2 (x : ℚ) : ℚ := (jsRound (x * 100) : ℚ) / 100

/-- `Array.prototype.slice(-n)`: the last `n` elements (the whole list when
it has fewer than `n`). -/
def lastN (n : ℕ) (l : List α) : List α := l.drop (l.length - n)

/-- One OHLCV candle as produced by `fetchKlineData` in `monitor.js`. -/
structure Candle where
  timestamp : ℤ
  open_     : ℚ
  high      : ℚ
  low       : ℚ
  close     : ℚ
  volume    : ℚ
deriving DecidableEq

instance : Inhabited Candle := ⟨⟨0, 0, 0, 0, 0, 0⟩⟩

/-- The object returned by `analyzeKline` in `monitor.js`.  The fields
`ma5 … avgVolume` are only assigned on the long-input path, so they are
`Option`-valued; the short-input path (`length < 3`) leaves them `none`,
matching the JavaScript object `{ trend, strength, rsi }`. -/
structure IndicatorResult where
  trend         : String
  strength      : ℚ
  rsi           : ℚ
  ma5           : Option ℚ := none
  ma10          : Option ℚ := none
  priceChange   : Option ℚ := none
  volumeSpike   : Option Bool := none
  currentVolume : Option ℚ := none
  avgVolume     : Option ℚ := none
deriving DecidableEq

/-- The consecutive differences `closes[i] - closes[i-1]` taken by the loop
in `calculateRSI` (`monitor.js` lines 135-139). -/
def changesOf : List ℚ → List ℚ
  | a :: b :: t => (b - a) :: changesOf (b :: t)
  | _ => []

/-- `calculateRSI(klines, period)` from `monitor.js` lines 129-149: with
fewer than `period + 1` candles return the neutral 50; otherwise sum the
positive consecutive close-deltas as gains and the absolute negative ones
as losses over the first `period` transitions, and return 100 when the
average loss is zero, else `round1 (100 - 100 / (1 + avgGain / avgLoss))`. -/
def calculateRSI (klines : List Candle) (period : ℕ) : ℚ :=
  if klines.length < period + 1 then 50
  else
    let closes := (klines.take (period + 1)).map (·.close)
    let changes := changesOf closes
    let gains := (changes.map (fun c => if c > 0 then c else 0)).sum
    let losses := (changes.map (fun c => if c > 0 then 0 else |c|)).sum
    let avgGain := gains / (period : ℚ)
    let avgLoss := losses / (period : ℚ)
    if avgLoss = 0 then 100
    else
      let rs := avgGain / avgLoss
      round1 (100 - (100 / (1 + rs)))

/-- `analyzeKline(klines)` from `monitor.js` lines 83-127, with the
configured `price_alerts.volume_spike_multiplier` passed explicitly as
`mult`.  Fewer than 3 candles yield the degenerate
`{ trend := "unknown", strength := 0, rsi := 50 }` object; otherwise the
working window is the last 10 candles, `ma5` is the sum of the window's
last 5 closes divided by 5, `ma10` the sum of all window closes divided by
10, and the trend/strength/volume/RSI fields follow the source line by
line. -/
def analyzeKline (klines : List Candle) (mult : ℚ) : IndicatorResult :=
  if klines.length < 3 then
    { trend := "unknown", strength := 0, rsi := 50 }
  else
    let recent := lastN 10 klines
    let current := recent.getLastD default
    let ma5 := ((lastN 5 recent).map (·.close)).sum / 5
    let ma10 := (recent.map (·.close)).sum / 10
    let priceChange := ((current.close - recent.headI.close) / recent.headI.close) * 100
    let trend :=
      if ma5 > ma10 ∧ current.close > ma5 then "bullish"
      else if ma5 < ma10 ∧ current.close < ma5 then "bearish"
      else "sideways"
    let strength :=
      if ma5 > ma10 ∧ current.close > ma5 then min |priceChange| 100
      else if ma5 < ma10 ∧ current.close < ma5 then min |priceChange| 100
      else 0
    let avgVolume := ((recent.dropLast).map (·.volume)).sum / ((recent.length - 1 : ℕ) : ℚ)
    let volumeSpike := current.volume > avgVolume * mult
    let rsi := calculateRSI (lastN 15 klines) 14
    { trend := trend
      strength := round1 strength
      ma5 := some (round2 ma5)
      ma10 := some (round2 ma10)
      priceChange := some (round2 priceChange)
      volumeSpike := some volumeSpike
      currentVolume := some ((jsRound current.volume : ℚ))
      avgVolume := some ((jsRound avgVolume : ℚ))
      rsi := rsi }

/-- Decimal rendering of a non-negative integer `n` of hundredths as
`"<int>.<2 digits>"`, used by `toFixed2`. -/
def hundredthsRepr (n : ℕ) : String :=
  toString (n / 100) ++ "." ++ (if n % 100 < 10 then "0" else "") ++ toString (n % 100)

/-- JavaScript `Number.prototype.toFixed(2)` on an exact rational:
round to the nearest hundredth (ties toward +∞, per the ECMA "pick the
larger n" rule) and render with two fraction digits. -/
def toFixed2 (x : ℚ) : String :=
  let n := jsRound (x * 100)
  if n < 0 then "-" ++ hundredthsRepr n.natAbs else hundredthsRepr n.natAbs

/-- `'✅ Multi-timeframe bullish signal'` (`monitor.js` line 204). -/
def bullishSignal : String := "✅ Multi-timeframe bullish signal"

/-- `'⚠️ Multi-timeframe bearish signal'` (`monitor.js` line 206). -/
def bearishSignal : String := "⚠️ Multi-timeframe bearish signal"

/-- `'⚖️ Mixed signals - suggest wait and see'` (`monitor.js` line 208). -/
def mixedSignal : String := "⚖️ Mixed signals - suggest wait and see"

/-- `'🔴 RSI overbought - possible correction ahead'` (line 215). -/
def overboughtSignal : String := "🔴 RSI overbought - possible correction ahead"

/-- `'🟢 RSI oversold - possible bounce opportunity'` (line 217). -/
def oversoldSignal : String := "🟢 RSI oversold - possible bounce opportunity"

/-- The template literal of `monitor.js` line 221: high-volatility signal
carrying the signed 24h change percentage. -/
def volatilitySignal (change24h : ℚ) : String :=
  "⚡ High volatility (" ++ (if change24h > 0 then "+" else "")
    ++ toFixed2 change24h ++ "%) - manage risk"

/-- `'📢 Unusual volume detected - significant move possible'` (line 226). -/
def volumeSignal : String := "📢 Unusual volume detected - significant move possible"

/-- `generateMarketSignals(priceData, klineAnalysis)` from `monitor.js`
lines 196-230.  Only `priceData.change24h` is read from the price data, so
it is passed directly; the `klineAnalysis` mapping is passed as its list
of per-timeframe values (aggregation ignores the timeframe labels).
A missing `volumeSpike` field (degenerate timeframe) is falsy in
JavaScript, modelled by `Option.getD false`. -/
def generateMarketSignals (change24h : ℚ) (analysis : List IndicatorResult) :
    List String :=
  let trends := analysis.map (·.trend)
  let bullishCount := (trends.filter (fun t => t == "bullish")).length
  let bearishCount := (trends.filter (fun t => t == "bearish")).length
  let consensus :=
    if bullishCount ≥ 3 then [bullishSignal]
    else if bearishCount ≥ 3 then [bearishSignal]
    else [mixedSignal]
  let rsiValues := analysis.map (·.rsi)
  let avgRSI := rsiValues.sum / (rsiValues.length : ℚ)
  let rsiSignals :=
    if avgRSI > 70 then [overboughtSignal]
    else if avgRSI < 30 then [oversoldSignal]
    else []
  let volatilitySignals :=
    if |change24h| > 5 then [volatilitySignal change24h] else []
  let volumeSignals :=
    if analysis.any (fun a => a.volumeSpike.getD false) then [volumeSignal] else []
  consensus ++ rsiSignals ++ volatilitySignals ++ volumeSignals

end BTCMonitor

namespace MemeHunter

/-- The `\w` word-character class of JavaScript regexes: `[A-Za-z0-9_]`. -/
def isWordChar (c : Char) : Bool := c.isAlpha || c.isDigit || c == '_'

/-- The `[a-fA-F0-9]` class of the Ethereum-address pattern. -/
def isHexDigit (c : Char) : Bool :=
  c.isDigit || ('a' ≤ c && c ≤ 'f') || ('A' ≤ c && c ≤ 'F')

/-- The `[1-9A-HJ-NP-Za-km-z]` base58 class of the Solana-address pattern
(excludes `0`, `O`, `I`, `l`). -/
def isBase58Char (c : Char) : Bool :=
  ('1' ≤ c && c ≤ '9') || ('A' ≤ c && c ≤ 'H') || ('J' ≤ c && c ≤ 'N') ||
  ('P' ≤ c && c ≤ 'Z') || ('a' ≤ c && c ≤ 'k') || ('m' ≤ c && c ≤ 'z')

/-- A `\b` word boundary holds before a word character iff the previous
character (if any) is not a word character. -/
def boundaryBefore (prev : Option Char) : Bool :=
  match prev with
  | none => true
  | some c => !isWordChar c

/-- A `\b` word boundary holds after a word character iff the following
text (if any) starts with a non-word character. -/
def boundaryAfter (rest : List Char) : Bool :=
  match rest with
  | [] => true
  | c :: _ => !isWordChar c

/-- Does `/\b0x[a-fA-F0-9]{40}\b/` match at the start of `l`?  The leading
`\b` is checked by the caller via `boundaryBefore`. -/
def matchEthAt (l : List Char) : Bool :=
  match l with
  | c0 :: c1 :: t =>
      c0 == '0' && c1 == 'x' && (t.take 40).length == 40 &&
      (t.take 40).all isHexDigit && boundaryAfter (t.drop 40)
  | _ => false

/-- All matches of the global regex `/\b0x[a-fA-F0-9]{40}\b/g` over the
text, in scan order: at each position with a word boundary before it, try
the fixed-length pattern; on success emit the 42-character match and
resume after it (`lastIndex` semantics), otherwise advance one character.
The fuel argument (instantiated with the text length, which bounds the
number of scan steps) makes the recursion structural so that the function
reduces inside the kernel. -/
def scanEthAux : ℕ → Option Char → List Char → List (List Char)
  | 0, _, _ => []
  | _ + 1, _, [] => []
  | fuel + 1, prev, c :: t =>
    if boundaryBefore prev && matchEthAt (c :: t) then
      ((c :: t).take 42) ::
        scanEthAux fuel (some (((c :: t).take 42).getLastD c)) ((c :: t).drop 42)
    else
      scanEthAux fuel (some c) t

/-- All matches of the global regex `/\b[1-9A-HJ-NP-Za-km-z]{32,44}\b/g`.
Because every base58 character is a word character, the greedy quantifier
followed by `\b` matches exactly a maximal base58 run of length 32-44 that
is delimited by word boundaries on both sides; the scan resumes after a
match and otherwise advances one character.  Fuel as in `scanEthAux`. -/
def scanBase58Aux : ℕ → Option Char → List Char → List (List Char)
  | 0, _, _ => []
  | _ + 1, _, [] => []
  | fuel + 1, prev, c :: t =>
    let r := ((c :: t).takeWhile isBase58Char).length
    if boundaryBefore prev && decide (32 ≤ r) && decide (r ≤ 44) &&
        boundaryAfter ((c :: t).drop r) then
      ((c :: t).take r) ::
        scanBase58Aux fuel (some (((c :: t).take r).getLastD c)) ((c :: t).drop r)
    else
      scanBase58Aux fuel (some c) t

/-- `Set` deduplication with JavaScript insertion order: add each element
in turn, skipping those already present. -/
def dedupFirst (l : List String) : List String :=
  l.foldl (fun acc x => if acc.contains x then acc else acc ++ [x]) []

/-- `extractContractAddress(text)` from the meme-hunter script lines
72-90: collect the matches of the Ethereum pattern, then of the Solana
pattern, into a `Set`, and return them as an array. -/
def extractContractAddress (text : String) : List String :=
  dedupFirst
    ((scanEthAux text.data.length none text.data).map (fun m => String.mk m) ++
     (scanBase58Aux text.data.length none text.data).map (fun m => String.mk m))

/-- JavaScript `String.prototype.toLowerCase` restricted to ASCII (the
only characters the heuristics compare). -/
def jsToLower (s : String) : String := String.mk (s.data.map Char.toLower)

/-- `String.prototype.includes`: is `pat` a contiguous substring of `s`? -/
def includesStr (s pat : String) : Bool := go s.data pat.data
where
  go (hay needle : List Char) : Bool :=
    needle.isPrefixOf hay ||
      match hay with
      | [] => false
      | _ :: t => go t needle

/-- `detectChain(text, ca)` from the meme-hunter script lines 92-109. -/
def detectChain (text ca : String) : String :=
  let lowerText := jsToLower text
  if includesStr lowerText "solana" || includesStr lowerText "sol" || ca.length > 40 then
    "SOL"
  else if includesStr lowerText "base" then
    "BASE"
  else if includesStr lowerText "bsc" || includesStr lowerText "binance smart chain" then
    "BSC"
  else if includesStr lowerText "ethereum" || includesStr lowerText "eth" ||
      "0x".isPrefixOf ca then
    "ETH"
  else
    "UNKNOWN"

/-- The `highRiskKeywords` array of `assessRisk` (line 115). -/
def highRiskKeywords : List String :=
  ["rug pull", "scam", "honeypot", "beware", "warning", "avoid"]

/-- The `positiveKeywords` array of `assessRisk` (line 116); note the
capitalised `"LP locked"` is kept verbatim from the source. -/
def positiveKeywords : List String :=
  ["audit", "safe", "verified", "legit", "solid team", "LP locked"]

/-- `assessRisk(text)` from the meme-hunter script lines 111-130: +2 per
high-risk keyword contained in the lowercased text, −1 per positive
keyword, then threshold the score. -/
def assessRisk (text : String) : String :=
  let lowerText := jsToLower text
  let riskScore : ℤ :=
    highRiskKeywords.foldl (fun acc kw => if includesStr lowerText kw then acc + 2 else acc) 0
  let riskScore :=
    positiveKeywords.foldl (fun acc kw => if includesStr lowerText kw then acc - 1 else acc)
      riskScore
  if riskScore ≥ 4 then "CRITICAL"
  else if riskScore ≥ 2 then "HIGH"
  else if riskScore ≥ 0 then "MEDIUM"
  else "LOW"

/-- The seen-token pruning loop of `init` (meme-hunter script lines
50-58): with `cooldownMs = alert_cooldown_hours * 60 * 60 * 1000`, delete
every entry whose timestamp satisfies `now - timestamp > cooldownMs`. -/
def pruneSeenTokens (now cooldownHours : ℤ) (entries : List (String × ℤ)) :
    List (String × ℤ) :=
  let cooldownMs := cooldownHours * 60 * 60 * 1000
  entries.filter (fun e => !(now - e.2 > cooldownMs : Bool))

end MemeHunter

open BTCMonitor MemeHunter

/-! ## Helper lemmas -/

/-- Folding `+2 per match` over a keyword list counts the matching
keywords. -/
theorem foldl_addTwoIf (p : String → Bool) :
    ∀ (l : List String) (init : ℤ),
      l.foldl (fun acc kw => if p kw then acc + 2 else acc) init
        = init + 2 * ((l.filter p).length : ℤ)
  | [], init => by simp
  | kw :: t, init => by
      by_cases h : p kw <;>
        simp [h, List.filter_cons, foldl_addTwoIf p t] <;> ring

/-- Folding `-1 per match` over a keyword list counts the matching
keywords. -/
theorem foldl_subOneIf (p : String → Bool) :
    ∀ (l : List String) (init : ℤ),
      l.foldl (fun acc kw => if p kw then acc - 1 else acc) init
        = init - ((l.filter p).length : ℤ)
  | [], init => by simp
  | kw :: t, init => by
      by_cases h : p kw <;>
        simp [h, List.filter_cons, foldl_subOneIf p t] <;> ring

/-- The risk score `assessRisk` accumulates, written arithmetically:
twice the number of matching high-risk keywords minus the number of
matching positive keywords. -/
def riskScoreOf (text : String) : ℤ :=
  2 * ((highRiskKeywords.filter (fun kw => includesStr (jsToLower text) kw)).length : ℤ)
    - ((positiveKeywords.filter (fun kw => includesStr (jsToLower text) kw)).length : ℤ)

/-- The score-to-level thresholds stated by the spec:
`≥4 → CRITICAL`, `≥2 → HIGH`, `≥0 → MEDIUM`, else `LOW`. -/
def riskLevelOf (score : ℤ) : String :=
  if score ≥ 4 then "CRITICAL"
  else if score ≥ 2 then "HIGH"
  else if score ≥ 0 then "MEDIUM"
  else "LOW"

/-! ## Claims C1, C7, C8, C9 -/

/-- Claim C1: on the text consisting of the single address-shaped token
`0xABCDEF0123456789ABCDEF0123456789ABCDEF01`, `extractContractAddress`
returns exactly that string, but `detectChain` classifies it as `"SOL"`,
not `"ETH"`: the extracted address has length 42, so the `ca.length > 40`
disjunct of the Solana branch fires before the `0x`-prefix Ethereum
branch is ever reached.  This contradicts the claimed (and spec-asserted)
`ETH` classification. -/
theorem c1_extract_and_chain_eval :
    extractContractAddress "0xABCDEF0123456789ABCDEF0123456789ABCDEF01" =
      ["0xABCDEF0123456789ABCDEF0123456789ABCDEF01"] ∧
    detectChain "0xABCDEF0123456789ABCDEF0123456789ABCDEF01"
      "0xABCDEF0123456789ABCDEF0123456789ABCDEF01" = "SOL" ∧
    detectChain "0xABCDEF0123456789ABCDEF0123456789ABCDEF01"
      "0xABCDEF0123456789ABCDEF0123456789ABCDEF01" ≠ "ETH" := by
  refine ⟨by decide, by decide, by decide⟩

/-- Claim C7: `assessRisk` maps its accumulated score through the
documented thresholds (`≥4 → CRITICAL`, `≥2 → HIGH`, `≥0 → MEDIUM`,
else `LOW`); the text `"warning: possible rug pull, unaudited"` is rated
`HIGH` (score 3: `warning` +2, `rug pull` +2, `audit` −1 inside
`unaudited`), and `"audited, LP locked, solid team"` is rated `LOW`
(score −2: `audit` and `solid team` each −1). -/
theorem c7_assessRisk_thresholds_and_examples :
    (∀ text : String, assessRisk text = riskLevelOf (riskScoreOf text)) ∧
    (assessRisk "warning: possible rug pull, unaudited" = "HIGH" ∨
     assessRisk "warning: possible rug pull, unaudited" = "CRITICAL") ∧
    assessRisk "audited, LP locked, solid team" = "LOW" := by
  refine ⟨fun text => ?_, Or.inl (by decide), by decide⟩
  simp only [assessRisk, riskLevelOf, riskScoreOf, foldl_addTwoIf, foldl_subOneIf]
  norm_num

/-- Claim C8: the positive keyword `'LP locked'` can never match, because
`assessRisk` lowercases the text before testing `includes('LP locked')`
with its capital letters kept.  The text `"LP locked"` therefore scores 0
and is rated `MEDIUM`, not the claimed −1 and `LOW`. -/
theorem c8_lp_locked_never_matches :
    includesStr (jsToLower "LP locked") "LP locked" = false ∧
    assessRisk "LP locked" = "MEDIUM" ∧
    assessRisk "LP locked" ≠ "LOW" := by
  refine ⟨by decide, by decide, by decide⟩

/-- Claim C9: on load, the pruning loop removes exactly the seen-token
entries whose age `now - timestamp` strictly exceeds the cooldown window
`cooldownHours * 60 * 60 * 1000` ms and keeps the rest; in particular an
entry timestamped `now - (cooldown+1) hours` is removed and one
timestamped `now - (cooldown-1) hours` is retained. -/
theorem c9_seen_token_pruning (now c ts : ℤ) (key : String)
    (entries : List (String × ℤ)) :
    ((key, ts) ∈ entries → now - ts > c * 60 * 60 * 1000 →
      (key, ts) ∉ pruneSeenTokens now c entries) ∧
    ((key, ts) ∈ entries → now - ts ≤ c * 60 * 60 * 1000 →
      (key, ts) ∈ pruneSeenTokens now c entries) ∧
    (ts = now - (c + 1) * 60 * 60 * 1000 → (key, ts) ∈ entries →
      (key, ts) ∉ pruneSeenTokens now c entries) ∧
    (ts = now - (c - 1) * 60 * 60 * 1000 → (key, ts) ∈ entries →
      (key, ts) ∈ pruneSeenTokens now c entries) := by
  simp only [pruneSeenTokens, List.mem_filter, Bool.not_eq_true',
    decide_eq_false_iff_not, not_lt]
  refine ⟨fun hm hage h => ?_, fun hm hage => ⟨hm, hage⟩,
          fun hts hm h => ?_, fun hts hm => ⟨hm, by omega⟩⟩
  · exact absurd h.2 (by omega)
  · exact absurd h.2 (by omega)

/-- Witness for C9 at concrete inputs: with `now = 0` and a 24-hour
cooldown, an entry aged 25 hours is pruned and one aged 23 hours is
kept. -/
theorem c9_seen_token_pruning_witness :
    ("stale", (0 : ℤ) - (24 + 1) * 60 * 60 * 1000) ∉
      pruneSeenTokens 0 24
        [("stale", 0 - (24 + 1) * 60 * 60 * 1000), ("fresh", 0 - (24 - 1) * 60 * 60 * 1000)] ∧
    ("fresh", (0 : ℤ) - (24 - 1) * 60 * 60 * 1000) ∈
      pruneSeenTokens 0 24
        [("stale", 0 - (24 + 1) * 60 * 60 * 1000), ("fresh", 0 - (24 - 1) * 60 * 60 * 1000)] :=
  ⟨(c9_seen_token_pruning 0 24 _ "stale" _).2.2.1 rfl (by decide),
   (c9_seen_token_pruning 0 24 _ "fresh" _).2.2.2 rfl (by decide)⟩

/-! ## Moving averages (claim C2) -/

/-- Arithmetic mean of a list of rationals. -/
def meanQ (l : List ℚ) : ℚ := l.sum / (l.length : ℚ)

/-- The length of `lastN n l` is `min n l.length`. -/
theorem length_lastN (n : ℕ) (l : List α) : (lastN n l).length = min n l.length := by
  simp only [lastN, List.length_drop]
  omega

/-- Taking the last `m` of the last `n` elements is taking the last `m`,
when `m ≤ n`. -/
theorem lastN_lastN (m n : ℕ) (h : m ≤ n) (l : List α) :
    lastN m (lastN n l) = lastN m l := by
  simp only [lastN, List.drop_drop, List.length_drop]
  congr 1
  omega

/-- A candle with the given closing price (other fields inert). -/
def mkCloseCandle (c : ℚ) : Candle := ⟨0, 0, 0, 0, c, 1⟩

/-- Three candles closing at 0.111: the window is all 3 candles, so the
claimed `shortMA` (mean of the last `min 5 3 = 3` closes) is 0.111, while
the code divides the 3-close sum by the constant 5 and rounds, giving
0.07. -/
def ksThree : List Candle :=
  [mkCloseCandle (111/1000), mkCloseCandle (111/1000), mkCloseCandle (111/1000)]

/-- Counterexample to claim C2 as stated: on `ksThree` (length 3 ≥ 3) the
`ma5` field returned by `analyzeKline` is 0.07, not the arithmetic mean
0.111 of the closes of the most recent `min 5 3` window candles, and the
`ma10` field is 0.03, not the mean 0.111 of all window closes. -/
theorem c2_short_window_counterexample :
    (analyzeKline ksThree 3).ma5 = some (7/100) ∧
    meanQ ((lastN (min 5 (lastN 10 ksThree).length) (lastN 10 ksThree)).map (·.close))
      = 111/1000 ∧
    (analyzeKline ksThree 3).ma5 ≠
      some (meanQ
        ((lastN (min 5 (lastN 10 ksThree).length) (lastN 10 ksThree)).map (·.close))) ∧
    (analyzeKline ksThree 3).ma10 = some (3/100) ∧
    (analyzeKline ksThree 3).ma10 ≠
      some (meanQ ((lastN 10 ksThree).map (·.close))) := by
  have hma5 : (analyzeKline ksThree 3).ma5 = some (7/100) := by
    norm_num [analyzeKline, ksThree, mkCloseCandle, lastN, round2, jsRound]
  have hma10 : (analyzeKline ksThree 3).ma10 = some (3/100) := by
    norm_num [analyzeKline, ksThree, mkCloseCandle, lastN, round2, jsRound]
  have hmean : meanQ
      ((lastN (min 5 (lastN 10 ksThree).length) (lastN 10 ksThree)).map (·.close))
      = 111/1000 := by
    norm_num [meanQ, ksThree, mkCloseCandle, lastN]
  have hmean10 : meanQ ((lastN 10 ksThree).map (·.close)) = 111/1000 := by
    norm_num [meanQ, ksThree, mkCloseCandle, lastN]
  refine ⟨hma5, hmean, ?_, hma10, ?_⟩
  · rw [hma5, hmean]; intro h; rw [Option.some_inj] at h; norm_num at h
  · rw [hma10, hmean10]; intro h; rw [Option.some_inj] at h; norm_num at h

/-- Claim C2 (amended): for at least 10 candles — so that the working
window holds exactly 10 candles and the divisors 5 and 10 are the true
window sizes — the returned `ma5` is the arithmetic mean of the closing
prices of the most recent 5 candles rounded to 2 decimal places, and
`ma10` is the arithmetic mean of the closing prices of the 10 window
candles rounded to 2 decimal places.  (For windows of 3-9 candles the
code still divides by the constants 5 and 10, and the returned fields are
rounded, which is what the counterexample exhibits.) -/
theorem c2_moving_averages (ks : List Candle) (mult : ℚ) (h : 10 ≤ ks.length) :
    (analyzeKline ks mult).ma5 = some (round2 (meanQ ((lastN 5 ks).map (·.close)))) ∧
    (analyzeKline ks mult).ma10 = some (round2 (meanQ ((lastN 10 ks).map (·.close)))) := by
  have h3 : ¬ ks.length < 3 := by omega
  have h5 : ((lastN 5 ks).map (·.close) : List ℚ).length = 5 := by
    simp only [List.length_map, length_lastN]; omega
  have h10 : ((lastN 10 ks).map (·.close) : List ℚ).length = 10 := by
    simp only [List.length_map, length_lastN]; omega
  constructor
  · simp only [analyzeKline, if_neg h3, lastN_lastN 5 10 (by norm_num), meanQ, h5]
    norm_num
  · simp only [analyzeKline, if_neg h3, meanQ, h10]
    norm_num

/-- Ten candles closing at 0, 1, …, 9. -/
def ksTen : List Candle :=
  [mkCloseCandle 0, mkCloseCandle 1, mkCloseCandle 2, mkCloseCandle 3, mkCloseCandle 4,
   mkCloseCandle 5, mkCloseCandle 6, mkCloseCandle 7, mkCloseCandle 8, mkCloseCandle 9]

/-- Witness for (amended) C2 at the concrete ten-candle list `ksTen`. -/
theorem c2_moving_averages_witness :
    (analyzeKline ksTen 3).ma5 = some (round2 (meanQ ((lastN 5 ksTen).map (·.close)))) ∧
    (analyzeKline ksTen 3).ma10 = some (round2 (meanQ ((lastN 10 ksTen).map (·.close)))) :=
  c2_moving_averages ksTen 3 (by decide)

/-! ## RSI (claim C4) -/

/-- `changesOf` shortens a list by one. -/
theorem changesOf_length : ∀ l : List ℚ, (changesOf l).length = l.length - 1
  | [] => rfl
  | [_] => rfl
  | _ :: b :: t => by
      simp only [changesOf, List.length_cons, changesOf_length (b :: t)]
      omega

/-- Over a strictly increasing list every consecutive change is positive. -/
theorem changesOf_pos : ∀ l : List ℚ, l.Chain' (· < ·) → ∀ c ∈ changesOf l, 0 < c
  | [], _, c, hc => by simp [changesOf] at hc
  | [_], _, c, hc => by simp [changesOf] at hc
  | a :: b :: t, h, c, hc => by
      rw [List.chain'_cons] at h
      simp only [changesOf, List.mem_cons] at hc
      rcases hc with rfl | hc
      · linarith [h.1]
      · exact changesOf_pos (b :: t) h.2 c hc

/-- Over a strictly decreasing list every consecutive change is negative. -/
theorem changesOf_neg : ∀ l : List ℚ, l.Chain' (· > ·) → ∀ c ∈ changesOf l, c < 0
  | [], _, c, hc => by simp [changesOf] at hc
  | [_], _, c, hc => by simp [changesOf] at hc
  | a :: b :: t, h, c, hc => by
      rw [List.chain'_cons] at h
      simp only [changesOf, List.mem_cons] at hc
      rcases hc with rfl | hc
      · linarith [h.1]
      · exact changesOf_neg (b :: t) h.2 c hc

/-- Mapping closes commutes with taking the last `n` candles. -/
theorem map_close_lastN (n : ℕ) (ks : List Candle) :
    (lastN n ks).map (·.close) = lastN n (ks.map (·.close)) := by
  simp [lastN, List.length_map]

/-- Claim C4: over the most recent 15 candles, strictly increasing closes
give RSI exactly 100 (the `avgLoss = 0` branch), strictly decreasing
closes give RSI exactly 0, and any list of fewer than 15 candles supplied
to `calculateRSI` yields the neutral 50. -/
theorem c4_rsi_extremes :
    (∀ ks : List Candle, 15 ≤ ks.length → (ks.map (·.close)).Chain' (· < ·) →
      calculateRSI (lastN 15 ks) 14 = 100) ∧
    (∀ ks : List Candle, 15 ≤ ks.length → (ks.map (·.close)).Chain' (· > ·) →
      calculateRSI (lastN 15 ks) 14 = 0) ∧
    (∀ ks : List Candle, ks.length < 15 → calculateRSI ks 14 = 50) := by
  have hlen : ∀ ks : List Candle, 15 ≤ ks.length → (lastN 15 ks).length = 15 := by
    intro ks h; rw [length_lastN]; omega
  refine ⟨fun ks h hinc => ?_, fun ks h hdec => ?_, fun ks h => ?_⟩
  · have hnotlt : ¬ (lastN 15 ks).length < 14 + 1 := by rw [hlen ks h]; omega
    have htake : (lastN 15 ks).take (14 + 1) = lastN 15 ks :=
      List.take_of_length_le (le_of_eq (hlen ks h))
    have hch : ((lastN 15 ks).map (·.close)).Chain' (· < ·) := by
      rw [map_close_lastN]; exact hinc.drop _
    have hzero : ((changesOf ((lastN 15 ks).map (·.close))).map
        (fun c => if c > 0 then 0 else |c|)).sum = (0 : ℚ) := by
      apply List.sum_eq_zero
      intro x hx
      obtain ⟨c, hc, rfl⟩ := List.mem_map.1 hx
      rw [if_pos (changesOf_pos _ hch c hc)]
    simp only [calculateRSI, if_neg hnotlt, htake]
    split_ifs with hcond
    · rfl
    · exact absurd (by rw [hzero, zero_div]) hcond
  · have hnotlt : ¬ (lastN 15 ks).length < 14 + 1 := by rw [hlen ks h]; omega
    have htake : (lastN 15 ks).take (14 + 1) = lastN 15 ks :=
      List.take_of_length_le (le_of_eq (hlen ks h))
    have hch : ((lastN 15 ks).map (·.close)).Chain' (· > ·) := by
      rw [map_close_lastN]; exact hdec.drop _
    have hgains : ((changesOf ((lastN 15 ks).map (·.close))).map
        (fun c => if c > 0 then c else 0)).sum = (0 : ℚ) := by
      apply List.sum_eq_zero
      intro x hx
      obtain ⟨c, hc, rfl⟩ := List.mem_map.1 hx
      rw [if_neg (not_lt.2 (le_of_lt (changesOf_neg _ hch c hc)))]
    have hlosses : (0 : ℚ) < ((changesOf ((lastN 15 ks).map (·.close))).map
        (fun c => if c > 0 then 0 else |c|)).sum := by
      apply List.sum_pos
      · intro x hx
        obtain ⟨c, hc, rfl⟩ := List.mem_map.1 hx
        have hneg := changesOf_neg _ hch c hc
        rw [if_neg (not_lt.2 (le_of_lt hneg))]
        exact abs_pos.2 (ne_of_lt hneg)
      · have hl14 : (changesOf ((lastN 15 ks).map (·.close))).length = 14 := by
          rw [changesOf_length, List.length_map, hlen ks h]
        intro hnil
        rw [List.map_eq_nil_iff] at hnil
        rw [hnil] at hl14
        simp at hl14
    simp only [calculateRSI, if_neg hnotlt, htake]
    split_ifs with hcond
    · exact absurd hcond (by positivity)
    · rw [hgains, zero_div, zero_div]
      norm_num [round1, jsRound]
  · simp only [calculateRSI, if_pos (show ks.length < 14 + 1 by omega)]

/-- Fifteen candles closing at 0, 1, …, 14 (strictly increasing). -/
def ksIncreasing : List Candle :=
  [mkCloseCandle 0, mkCloseCandle 1, mkCloseCandle 2, mkCloseCandle 3, mkCloseCandle 4,
   mkCloseCandle 5, mkCloseCandle 6, mkCloseCandle 7, mkCloseCandle 8, mkCloseCandle 9,
   mkCloseCandle 10, mkCloseCandle 11, mkCloseCandle 12, mkCloseCandle 13, mkCloseCandle 14]

/-- Fifteen candles closing at 14, 13, …, 0 (strictly decreasing). -/
def ksDecreasing : List Candle :=
  [mkCloseCandle 14, mkCloseCandle 13, mkCloseCandle 12, mkCloseCandle 11, mkCloseCandle 10,
   mkCloseCandle 9, mkCloseCandle 8, mkCloseCandle 7, mkCloseCandle 6, mkCloseCandle 5,
   mkCloseCandle 4, mkCloseCandle 3, mkCloseCandle 2, mkCloseCandle 1, mkCloseCandle 0]

/-- Witness for C4 at concrete inputs: RSI 100 on the increasing list,
RSI 0 on the decreasing list, and RSI 50 on a 5-candle list. -/
theorem c4_rsi_extremes_witness :
    calculateRSI (lastN 15 ksIncreasing) 14 = 100 ∧
    calculateRSI (lastN 15 ksDecreasing) 14 = 0 ∧
    calculateRSI (ksIncreasing.take 5) 14 = 50 :=
  ⟨c4_rsi_extremes.1 ksIncreasing (by decide)
      (by norm_num [ksIncreasing, mkCloseCandle, List.chain'_cons]),
   c4_rsi_extremes.2.1 ksDecreasing (by decide)
      (by norm_num [ksDecreasing, mkCloseCandle, List.chain'_cons]),
   c4_rsi_extremes.2.2 (ksIncreasing.take 5) (by decide)⟩

/-! ## Signal aggregation (claims C5, C6, C10) -/

/-- Number of timeframes whose trend is `"bullish"`, as counted by
`generateMarketSignals`. -/
def bullishCountOf (analysis : List IndicatorResult) : ℕ :=
  ((analysis.map (·.trend)).filter (fun t => t == "bullish")).length

/-- Number of timeframes whose trend is `"bearish"`. -/
def bearishCountOf (analysis : List IndicatorResult) : ℕ :=
  ((analysis.map (·.trend)).filter (fun t => t == "bearish")).length

/-- The mean RSI across the timeframes, as computed by
`generateMarketSignals`. -/
def avgRSIOf (analysis : List IndicatorResult) : ℚ :=
  (analysis.map (·.rsi)).sum / ((analysis.map (·.rsi)).length : ℚ)

/-- Is `s` one of the three consensus signal strings? -/
def consensusPred (s : String) : Bool :=
  s == bullishSignal || s == bearishSignal || s == mixedSignal

/-- `generateMarketSignals` written as the four independently-guarded
signal groups, in emission order. -/
theorem gms_unfold (change24h : ℚ) (analysis : List IndicatorResult) :
    generateMarketSignals change24h analysis =
      (if bullishCountOf analysis ≥ 3 then [bullishSignal]
       else if bearishCountOf analysis ≥ 3 then [bearishSignal]
       else [mixedSignal]) ++
      (if avgRSIOf analysis > 70 then [overboughtSignal]
       else if avgRSIOf analysis < 30 then [oversoldSignal]
       else []) ++
      (if |change24h| > 5 then [volatilitySignal change24h] else []) ++
      (if analysis.any (fun a => a.volumeSpike.getD false) then [volumeSignal]
       else []) := rfl

/-- Whatever the 24h change, the volatility signal starts with `'⚡'`. -/
theorem volatilitySignal_head (c : ℚ) :
    (volatilitySignal c).data.head? = some '⚡' := rfl

/-- Any string not starting with `'⚡'` differs from every volatility
signal. -/
theorem ne_volatilitySignal (c : ℚ) (s : String) (h : s.data.head? ≠ some '⚡') :
    s ≠ volatilitySignal c :=
  fun e => h (by rw [e]; exact volatilitySignal_head c)

/-- The volatility signal is never counted as a consensus signal. -/
theorem consensusPred_volatility (c : ℚ) : consensusPred (volatilitySignal c) = false := by
  have hb : (volatilitySignal c == bullishSignal) = false :=
    beq_eq_false_iff_ne.2 fun e => (ne_volatilitySignal c bullishSignal (by decide)) e.symm
  have he : (volatilitySignal c == bearishSignal) = false :=
    beq_eq_false_iff_ne.2 fun e => (ne_volatilitySignal c bearishSignal (by decide)) e.symm
  have hm : (volatilitySignal c == mixedSignal) = false :=
    beq_eq_false_iff_ne.2 fun e => (ne_volatilitySignal c mixedSignal (by decide)) e.symm
  simp [consensusPred, hb, he, hm]

/-- Claim C5: for a nonempty analysis mapping the first emitted signal is
the consensus signal selected by the bullish/bearish counts (bullish at
≥3 bullish timeframes, else bearish at ≥3 bearish, else mixed), exactly
one of the three consensus strings occurs in the whole output, and the
output holds between 1 and 4 strings.  (The embedding is a pure function
of `change24h` and the analysis values, so the output is deterministic by
construction.) -/
theorem c5_consensus_and_size (change24h : ℚ) (analysis : List IndicatorResult)
    (_h : analysis ≠ []) :
    (generateMarketSignals change24h analysis).head? =
      some (if bullishCountOf analysis ≥ 3 then bullishSignal
            else if bearishCountOf analysis ≥ 3 then bearishSignal
            else mixedSignal) ∧
    (generateMarketSignals change24h analysis).countP consensusPred = 1 ∧
    1 ≤ (generateMarketSignals change24h analysis).length ∧
    (generateMarketSignals change24h analysis).length ≤ 4 := by
  rw [gms_unfold]
  refine ⟨?_, ?_, ?_, ?_⟩
  · split_ifs <;> rfl
  · split_ifs <;>
      simp [List.countP_append, List.countP_cons, consensusPred_volatility,
        (by decide : consensusPred bullishSignal = true),
        (by decide : consensusPred bearishSignal = true),
        (by decide : consensusPred mixedSignal = true),
        (by decide : consensusPred overboughtSignal = false),
        (by decide : consensusPred oversoldSignal = false),
        (by decide : consensusPred volumeSignal = false)]
  · split_ifs <;> simp
  · split_ifs <;> simp

/-- A minimal `IndicatorResult` carrying only a trend and an RSI, as the
degenerate path produces. -/
def simpleResult (t : String) (r : ℚ) : IndicatorResult :=
  { trend := t, strength := 0, rsi := r }

/-- Three bullish timeframes plus one sideways timeframe. -/
def exBullish : List IndicatorResult :=
  [simpleResult "bullish" 50, simpleResult "bullish" 50, simpleResult "bullish" 50,
   simpleResult "sideways" 50]

/-- Witness for C5 at the concrete mapping `exBullish`. -/
theorem c5_consensus_and_size_witness :
    (generateMarketSignals 0 exBullish).head? =
      some (if bullishCountOf exBullish ≥ 3 then bullishSignal
            else if bearishCountOf exBullish ≥ 3 then bearishSignal
            else mixedSignal) ∧
    (generateMarketSignals 0 exBullish).countP consensusPred = 1 ∧
    1 ≤ (generateMarketSignals 0 exBullish).length ∧
    (generateMarketSignals 0 exBullish).length ≤ 4 :=
  c5_consensus_and_size 0 exBullish (by simp [exBullish])

/-- Claim C6: for a nonempty analysis mapping, the overbought signal is
emitted iff the mean RSI exceeds 70, the oversold signal iff it is below
30, and neither when the mean lies in `[30, 70]`. -/
theorem c6_rsi_signals (change24h : ℚ) (analysis : List IndicatorResult)
    (_h : analysis ≠ []) :
    (overboughtSignal ∈ generateMarketSignals change24h analysis ↔
      avgRSIOf analysis > 70) ∧
    (oversoldSignal ∈ generateMarketSignals change24h analysis ↔
      avgRSIOf analysis < 30) ∧
    (30 ≤ avgRSIOf analysis ∧ avgRSIOf analysis ≤ 70 →
      overboughtSignal ∉ generateMarketSignals change24h analysis ∧
      oversoldSignal ∉ generateMarketSignals change24h analysis) := by
  have hobA : overboughtSignal ∉
      (if bullishCountOf analysis ≥ 3 then [bullishSignal]
       else if bearishCountOf analysis ≥ 3 then [bearishSignal]
       else [mixedSignal]) := by
    split_ifs <;> decide
  have hosA : oversoldSignal ∉
      (if bullishCountOf analysis ≥ 3 then [bullishSignal]
       else if bearishCountOf analysis ≥ 3 then [bearishSignal]
       else [mixedSignal]) := by
    split_ifs <;> decide
  have hobC : overboughtSignal ∉
      (if |change24h| > 5 then [volatilitySignal change24h] else []) := by
    split_ifs
    · simp only [List.mem_singleton]
      exact ne_volatilitySignal change24h overboughtSignal (by decide)
    · simp
  have hosC : oversoldSignal ∉
      (if |change24h| > 5 then [volatilitySignal change24h] else []) := by
    split_ifs
    · simp only [List.mem_singleton]
      exact ne_volatilitySignal change24h oversoldSignal (by decide)
    · simp
  have hobD : overboughtSignal ∉
      (if analysis.any (fun a => a.volumeSpike.getD false) then [volumeSignal]
       else []) := by
    split_ifs <;> decide
  have hosD : oversoldSignal ∉
      (if analysis.any (fun a => a.volumeSpike.getD false) then [volumeSignal]
       else []) := by
    split_ifs <;> decide
  have hob : overboughtSignal ∈ generateMarketSignals change24h analysis ↔
      avgRSIOf analysis > 70 := by
    rw [gms_unfold]
    simp only [List.mem_append, hobA, hobC, hobD, false_or, or_false]
    split_ifs with h1 h2
    · simp [h1]
    · exact iff_of_false (by decide) h1
    · exact iff_of_false (by simp) h1
  have hos : oversoldSignal ∈ generateMarketSignals change24h analysis ↔
      avgRSIOf analysis < 30 := by
    rw [gms_unfold]
    simp only [List.mem_append, hosA, hosC, hosD, false_or, or_false]
    split_ifs with h1 h2
    · exact iff_of_false (by decide) (by linarith)
    · simp [h2]
    · exact iff_of_false (by simp) h2
  exact ⟨hob, hos, fun hr =>
    ⟨fun hmem => absurd (hob.1 hmem) (by linarith),
     fun hmem => absurd (hos.1 hmem) (by linarith)⟩⟩

/-- Four timeframes with mean RSI 75. -/
def exRsi75 : List IndicatorResult :=
  [simpleResult "sideways" 75, simpleResult "sideways" 75, simpleResult "sideways" 75,
   simpleResult "sideways" 75]

/-- Four timeframes with mean RSI 50. -/
def exRsi50 : List IndicatorResult :=
  [simpleResult "sideways" 50, simpleResult "sideways" 50, simpleResult "sideways" 50,
   simpleResult "sideways" 50]

/-- Witness for C6: mean RSI 75 emits the overbought signal; mean RSI 50
emits neither RSI signal. -/
theorem c6_rsi_signals_witness :
    overboughtSignal ∈ generateMarketSignals 0 exRsi75 ∧
    overboughtSignal ∉ generateMarketSignals 0 exRsi50 ∧
    oversoldSignal ∉ generateMarketSignals 0 exRsi50 :=
  ⟨(c6_rsi_signals 0 exRsi75 (by simp [exRsi75])).1.mpr
      (by norm_num [avgRSIOf, exRsi75, simpleResult]),
   ((c6_rsi_signals 0 exRsi50 (by simp [exRsi50])).2.2
      ⟨by norm_num [avgRSIOf, exRsi50, simpleResult],
       by norm_num [avgRSIOf, exRsi50, simpleResult]⟩).1,
   ((c6_rsi_signals 0 exRsi50 (by simp [exRsi50])).2.2
      ⟨by norm_num [avgRSIOf, exRsi50, simpleResult],
       by norm_num [avgRSIOf, exRsi50, simpleResult]⟩).2⟩

/-- The volume-anomaly signal is emitted iff some timeframe's
`volumeSpike` is present and true. -/
theorem volumeSignal_mem_iff (change24h : ℚ) (analysis : List IndicatorResult) :
    volumeSignal ∈ generateMarketSignals change24h analysis ↔
      analysis.any (fun a => a.volumeSpike.getD false) = true := by
  rw [gms_unfold]
  have hvo := ne_volatilitySignal change24h volumeSignal (by decide)
  split_ifs <;>
    simp_all [List.mem_append,
      (by decide : volumeSignal ≠ bullishSignal),
      (by decide : volumeSignal ≠ bearishSignal),
      (by decide : volumeSignal ≠ mixedSignal),
      (by decide : volumeSignal ≠ overboughtSignal),
      (by decide : volumeSignal ≠ oversoldSignal)]

/-- Claim C10: with fewer than 3 candles, `analyzeKline` leaves all of
`ma5`, `ma10`, `priceChange`, `volumeSpike`, `currentVolume`, `avgVolume`
absent (the JavaScript object holds only `trend`, `strength`, `rsi`), and
`generateMarketSignals` treats the absent `volumeSpike` as false: adding
such a degenerate timeframe never changes whether the volume-anomaly
signal is emitted. -/
theorem c10_degenerate_result_fields (ks : List Candle) (mult : ℚ)
    (h : ks.length < 3) :
    (analyzeKline ks mult).ma5 = none ∧ (analyzeKline ks mult).ma10 = none ∧
    (analyzeKline ks mult).priceChange = none ∧
    (analyzeKline ks mult).volumeSpike = none ∧
    (analyzeKline ks mult).currentVolume = none ∧
    (analyzeKline ks mult).avgVolume = none ∧
    ∀ (change24h : ℚ) (analysis : List IndicatorResult),
      (volumeSignal ∈
          generateMarketSignals change24h (analysis ++ [analyzeKline ks mult]) ↔
        volumeSignal ∈ generateMarketSignals change24h analysis) := by
  have e : analyzeKline ks mult = { trend := "unknown", strength := 0, rsi := 50 } := by
    unfold analyzeKline
    rw [if_pos h]
  rw [e]
  refine ⟨rfl, rfl, rfl, rfl, rfl, rfl, fun change24h analysis => ?_⟩
  rw [volumeSignal_mem_iff, volumeSignal_mem_iff, List.any_append]
  simp

/-- Witness for C10 at the empty candle list and empty mapping. -/
theorem c10_degenerate_result_fields_witness :
    (analyzeKline [] 3).ma5 = none ∧
    (volumeSignal ∈ generateMarketSignals 0 ([] ++ [analyzeKline [] 3]) ↔
      volumeSignal ∈ generateMarketSignals 0 []) :=
  ⟨(c10_degenerate_result_fields [] 3 (by decide)).1,
   (c10_degenerate_result_fields [] 3 (by decide)).2.2.2.2.2.2 0 []⟩

/-! ## Invariants (claim C3) -/

/-- `round1` maps `[0, 100]` into `[0, 100]`. -/
theorem round1_bounds {x : ℚ} (h0 : 0 ≤ x) (h1 : x ≤ 100) :
    0 ≤ round1 x ∧ round1 x ≤ 100 := by
  unfold round1 jsRound
  constructor
  · apply div_nonneg _ (by norm_num)
    have hf : (0 : ℤ) ≤ ⌊x * 10 + 1/2⌋ := Int.le_floor.2 (by push_cast; linarith)
    exact_mod_cast hf
  · have hle : ((⌊x * 10 + 1/2⌋ : ℤ) : ℚ) ≤ x * 10 + 1/2 := Int.floor_le _
    have h2 : ((⌊x * 10 + 1/2⌋ : ℤ) : ℚ) < 1001 := by linarith
    have h3 : (⌊x * 10 + 1/2⌋ : ℤ) < 1001 := by exact_mod_cast h2
    have h4 : ((⌊x * 10 + 1/2⌋ : ℤ) : ℚ) ≤ 1000 := by
      exact_mod_cast (show (⌊x * 10 + 1/2⌋ : ℤ) ≤ 1000 by omega)
    linarith

/-- The non-degenerate RSI formula lands in `[0, 100]` whenever the gain
and loss sums are non-negative and the average loss is non-zero. -/
theorem rsi_formula_bounds (g l : ℚ) (p : ℕ) (hg : 0 ≤ g) (hl : 0 ≤ l)
    (hne : ¬ l / (p : ℚ) = 0) :
    0 ≤ round1 (100 - 100 / (1 + g / (p : ℚ) / (l / (p : ℚ)))) ∧
    round1 (100 - 100 / (1 + g / (p : ℚ) / (l / (p : ℚ)))) ≤ 100 := by
  have hp : (0 : ℚ) ≤ (p : ℚ) := Nat.cast_nonneg p
  have hA : 0 < l / (p : ℚ) :=
    lt_of_le_of_ne (div_nonneg hl hp) (fun e => hne e.symm)
  have hrs : 0 ≤ g / (p : ℚ) / (l / (p : ℚ)) :=
    div_nonneg (div_nonneg hg hp) (le_of_lt hA)
  have hden : (1 : ℚ) ≤ 1 + g / (p : ℚ) / (l / (p : ℚ)) := by linarith
  have hfrac_pos : 0 < 100 / (1 + g / (p : ℚ) / (l / (p : ℚ))) :=
    div_pos (by norm_num) (by linarith)
  have hfrac_le : 100 / (1 + g / (p : ℚ) / (l / (p : ℚ))) ≤ 100 :=
    div_le_self (by norm_num) hden
  exact round1_bounds (by linarith) (by linarith)

/-- `calculateRSI` always lands in `[0, 100]`. -/
theorem calculateRSI_bounds (klines : List Candle) (p : ℕ) :
    0 ≤ calculateRSI klines p ∧ calculateRSI klines p ≤ 100 := by
  simp only [calculateRSI]
  split_ifs with h1 h2
  · norm_num
  · norm_num
  · apply rsi_formula_bounds
    · apply List.sum_nonneg
      intro x hx
      obtain ⟨c, _, rfl⟩ := List.mem_map.1 hx
      split_ifs with h
      · exact le_of_lt h
      · exact le_refl 0
    · apply List.sum_nonneg
      intro x hx
      obtain ⟨c, _, rfl⟩ := List.mem_map.1 hx
      split_ifs with h
      · exact le_refl 0
      · exact abs_nonneg c
    · exact h2

/-- Claim C3: every `IndicatorResult` produced by `analyzeKline` has
`strength` and `rsi` in `[0, 100]`; its `trend` is `"unknown"` exactly
when fewer than 3 candles were supplied, in which case `strength = 0` and
`rsi = 50`; otherwise the trend is one of `"bullish"`, `"bearish"`,
`"sideways"`. -/
theorem c3_indicator_invariants (ks : List Candle) (mult : ℚ) :
    (0 ≤ (analyzeKline ks mult).strength ∧ (analyzeKline ks mult).strength ≤ 100) ∧
    (0 ≤ (analyzeKline ks mult).rsi ∧ (analyzeKline ks mult).rsi ≤ 100) ∧
    ((analyzeKline ks mult).trend = "unknown" ↔ ks.length < 3) ∧
    (ks.length < 3 →
      (analyzeKline ks mult).strength = 0 ∧ (analyzeKline ks mult).rsi = 50) ∧
    (3 ≤ ks.length →
      (analyzeKline ks mult).trend = "bullish" ∨ (analyzeKline ks mult).trend = "bearish" ∨
        (analyzeKline ks mult).trend = "sideways") := by
  by_cases hlen : ks.length < 3
  · have e : analyzeKline ks mult = { trend := "unknown", strength := 0, rsi := 50 } := by
      unfold analyzeKline
      rw [if_pos hlen]
    rw [e]
    exact ⟨⟨le_rfl, by norm_num⟩, ⟨by norm_num, by norm_num⟩,
      iff_of_true rfl hlen, fun _ => ⟨rfl, rfl⟩, fun h3 => absurd hlen (by omega)⟩
  · simp only [analyzeKline, if_neg hlen]
    refine ⟨?_, calculateRSI_bounds (lastN 15 ks) 14, ?_, fun h => absurd h hlen, fun _ => ?_⟩
    · refine round1_bounds ?_ ?_
      · split_ifs
        · exact le_min (abs_nonneg _) (by norm_num)
        · exact le_min (abs_nonneg _) (by norm_num)
        · exact le_refl 0
      · split_ifs
        · exact min_le_right _ _
        · exact min_le_right _ _
        · norm_num
    · refine iff_of_false ?_ hlen
      split_ifs
      · decide
      · decide
      · decide
    · split_ifs
      · exact Or.inl rfl
      · exact Or.inr (Or.inl rfl)
      · exact Or.inr (Or.inr rfl)

/-- Witness for C3 at the empty candle list: strength 0, rsi 50, and the
trend is `"unknown"` iff the length is below 3 (it is). -/
theorem c3_indicator_invariants_witness :
    (analyzeKline [] 3).strength = 0 ∧ (analyzeKline [] 3).rsi = 50 ∧
    ((analyzeKline [] 3).trend = "unknown" ↔ ([] : List Candle).length < 3) :=
  ⟨((c3_indicator_invariants [] 3).2.2.2.1 (by decide)).1,
   ((c3_indicator_invariants [] 3).2.2.2.1 (by decide)).2,
   (c3_indicator_invariants [] 3).2.2.1⟩
